import Mathlib

/-!
Verification of the graceful-shutdown signal guard (src/src/lib.rs).

The crate has two mutually exclusive platform variants of one component,
a SignalGuard:

* the mask-based (Unix) variant builds a signal set containing SIGINT,
  SIGQUIT and SIGTERM, blocks it for the calling thread at construction,
  and in at_exit synchronously waits for one of the blocked signals and
  invokes the user handler once with the raw signal number;
* the handler-based (Windows) variant registers a console control handler
  and converts the asynchronous callback into a synchronous rendezvous
  through a zero-capacity channel CHAN guarded (on the receiving end) by
  a mutex.

OS calls (pthread_sigmask, sigwait, SetConsoleCtrlHandler, channel and
lock failures) are modelled by oracle parameters giving the outcome of
the call; a Rust panic coming from unwrap is modelled by the error branch
of Except.  The Windows handshake between the OS-spawned callback context
and the thread inside at_exit is modelled by a small-step semantics over
the two straight-line programs, with the zero-capacity channel giving a
single transition that advances the sender and the receiver together.
-/

/-! ## Mask-based (Unix) variant, lib.rs lines 55-89 -/

/-- Raw number of SIGINT (the value of the nix constant). -/
def SIGINT : Nat := 2

/-- Raw number of SIGQUIT. -/
def SIGQUIT : Nat := 3

/-- Raw number of SIGTERM. -/
def SIGTERM : Nat := 15

/-- nix SigSet: a set of signal numbers, kept in insertion order. -/
structure SigSet where
  sigs : List Nat
  deriving DecidableEq

/-- SigSet::empty(). -/
def SigSet.empty : SigSet := ⟨[]⟩

/-- SigSet::add: adds one signal number to the set. -/
def SigSet.add (s : SigSet) (signum : Nat) : SigSet := ⟨s.sigs ++ [signum]⟩

/-- The per-thread OS signal disposition: which signal numbers the calling
thread currently blocks. -/
structure UnixThreadState where
  blocked : List Nat
  deriving DecidableEq

/-- SigSet::thread_block, i.e. pthread_sigmask(SIG_BLOCK, set): on success the
set is added to the thread blocked mask; the oracle osErr gives the errno of a
failing call. -/
def SigSet.thread_block (s : SigSet) (st : UnixThreadState) (osErr : Option Nat) :
    Except Nat UnixThreadState :=
  match osErr with
  | some e => Except.error e
  | none => Except.ok ⟨st.blocked ++ s.sigs⟩

/-- The Unix SignalGuard: struct SignalGuard(SigSet). -/
structure UnixSignalGuard where
  mask : SigSet
  deriving DecidableEq

/-- SignalGuard::init (lib.rs lines 73-78): adds SIGINT, SIGQUIT and SIGTERM to
the mask and blocks it for the calling thread.  Returns the mutated mask
together with the new thread state, mirroring the &mut SigSet argument. -/
def UnixSignalGuard.init (mask : SigSet) (st : UnixThreadState) (osErr : Option Nat) :
    Except Nat (SigSet × UnixThreadState) :=
  let mask1 := mask.add SIGINT
  let mask2 := mask1.add SIGQUIT
  let mask3 := mask2.add SIGTERM
  match mask3.thread_block st osErr with
  | Except.error e => Except.error e
  | Except.ok st2 => Except.ok (mask3, st2)

/-- SignalGuard::new (lib.rs lines 67-71): starts from SigSet::empty, runs init
and unwraps.  The error branch models the panic of unwrap, carrying the OS
error; no guard is produced on that branch. -/
def UnixSignalGuard.new (st : UnixThreadState) (osErr : Option Nat) :
    Except Nat (UnixSignalGuard × UnixThreadState) :=
  match UnixSignalGuard.init SigSet.empty st osErr with
  | Except.error e => Except.error e
  | Except.ok (mask, st2) => Except.ok (⟨mask⟩, st2)

/-- SigSet::wait, i.e. sigwait on the set: the oracle osRes gives the outcome
of the OS call (the delivered signal number, or an errno). -/
def SigSet.wait (s : SigSet) (osRes : Except Nat Nat) : Except Nat Nat := osRes

/-- SignalGuard::at_exit, Unix variant (lib.rs lines 84-87):
sig = self.0.wait().unwrap(); handler(sig as usize).
The result pairs the outcome (the user handler result together with the
unchanged guard and thread state on normal return, or the panic of unwrap)
with the trace of arguments the user handler was invoked with. -/
def UnixSignalGuard.at_exit (σ : Type) (g : UnixSignalGuard) (st : UnixThreadState)
    (osRes : Except Nat Nat) (handler : Nat → σ → σ) (s : σ) :
    Except Nat (σ × UnixSignalGuard × UnixThreadState) × List Nat :=
  match g.mask.wait osRes with
  | Except.error e => (Except.error e, [])
  | Except.ok sig => (Except.ok (handler sig s, g, st), [sig])

/-! ## Handler-based (Windows) variant, lib.rs lines 91-135 -/

/-- winapi TRUE. -/
def TRUE : Nat := 1

/-- One end of a std::sync::mpsc::sync_channel, recording the capacity of the
underlying channel. -/
structure SyncChannelSpec where
  capacity : Nat
  deriving DecidableEq

/-- sync_channel(bound): a (SyncSender, Receiver) pair over a channel of the
given capacity. -/
def sync_channel (bound : Nat) : SyncChannelSpec × SyncChannelSpec :=
  (⟨bound⟩, ⟨bound⟩)

/-- The process-wide CHAN static (lib.rs lines 105-110): the sender and the
receiver of sync_channel(0); the receiver is kept behind a mutex, which the
step semantics below models with the lockHeld flag. -/
def CHAN : SyncChannelSpec × SyncChannelSpec :=
  ((sync_channel 0).1, (sync_channel 0).2)

/-- The lazy_static initialization discipline for CHAN: the cell starts out
none and the value is created on first dereference, process-wide; later
dereferences return the same value. -/
def lazyStaticForce (cell : Option (SyncChannelSpec × SyncChannelSpec)) :
    (SyncChannelSpec × SyncChannelSpec) × Option (SyncChannelSpec × SyncChannelSpec) :=
  match cell with
  | none => (CHAN, some CHAN)
  | some v => (v, some v)

/-- The process-wide console control handler chain: the list of registered
handler routine addresses. -/
structure WinRegState where
  ctrlHandlers : List Nat
  deriving DecidableEq

/-- The address of the handler function registered by the crate. -/
def handlerRoutine : Nat := 1

/-- SetConsoleCtrlHandler(routine, add): the oracle osOk gives the outcome of
the OS call.  On success with a nonzero add flag the routine is appended to
the handler chain and TRUE is returned; on failure the chain is unchanged and
0 (FALSE) is returned. -/
def SetConsoleCtrlHandler (routine : Option Nat) (add : Nat) (st : WinRegState)
    (osOk : Bool) : Nat × WinRegState :=
  if osOk then
    if add ≠ 0 then (TRUE, ⟨st.ctrlHandlers ++ routine.toList⟩)
    else (TRUE, ⟨st.ctrlHandlers.filter (fun r => decide (routine ≠ some r))⟩)
  else (0, st)

/-- The Windows SignalGuard: a unit struct. -/
inductive WinSignalGuard
  | mk
  deriving DecidableEq

/-- SignalGuard::new, Windows variant (lib.rs lines 121-124):
unsafe { SetConsoleCtrlHandler(Some(handler), TRUE) }; SignalGuard.
The return value of the OS call is discarded by the source, so a guard is
produced whatever the outcome. -/
def WinSignalGuard.new (st : WinRegState) (osOk : Bool) : WinSignalGuard × WinRegState :=
  let r := SetConsoleCtrlHandler (some handlerRoutine) TRUE st osOk
  (WinSignalGuard.mk, r.2)

/-- Failures of channel and lock operations. -/
inductive ChanErr
  | disconnected
  | poisoned
  deriving DecidableEq

/-- Sequential view of at_exit, Windows variant (lib.rs lines 126-133), used
for the failure-path claims: lock1 and lock2 give the outcomes of the two
CHAN.1.lock() calls (false = poisoned), recv1 and recv2 the outcomes of the
two recv() calls.  Every failure is unwrapped, i.e. turns into the error
branch (a panic); the result also carries the trace of arguments the user
handler was invoked with.  The value of the second received message is
discarded. -/
def at_exit_win_seq (σ : Type) (lock1 : Bool) (recv1 : Except ChanErr Nat)
    (lock2 : Bool) (recv2 : Except ChanErr Nat) (handler : Nat → σ → σ) (s : σ) :
    Except ChanErr σ × List Nat :=
  if lock1 = false then (Except.error ChanErr.poisoned, [])
  else
    match recv1 with
    | Except.error e => (Except.error e, [])
    | Except.ok event =>
      let s2 := handler event s
      if lock2 = false then (Except.error ChanErr.poisoned, [event])
      else
        match recv2 with
        | Except.error e => (Except.error e, [event])
        | Except.ok _ => (Except.ok s2, [event])

/-- Sequential view of the handler callback (lib.rs lines 112-116), used for
the failure-path claims: send1 and send2 give the outcomes of the two
CHAN.0.send calls (some e = failure, unwrapped into a panic).  When both
sends succeed the callback returns TRUE.  The result also carries the trace
of values successfully sent into the channel: the event code first, then the
constant 0. -/
def handler_seq (event : Nat) (send1 send2 : Option ChanErr) :
    Except ChanErr Nat × List Nat :=
  match send1 with
  | some e => (Except.error e, [])
  | none =>
    match send2 with
    | some e => (Except.error e, [event])
    | none => (Except.ok TRUE, [event, 0])

/-! ## Step semantics of the Windows handshake

Two execution contexts run concurrently: the OS-spawned callback context
executing handler(event), and the waiting thread executing at_exit.  Both
straight-line bodies are given as instruction lists; the channel CHAN has
capacity zero, so a message transfer is a single transition that advances
the sender and the receiver together. -/

/-- Instructions of either context: acquire or release the receiver mutex,
receive binding the value (the first recv of at_exit, whose value becomes
the event), receive discarding the value (the second recv of at_exit), call
the user handler with the bound value, send the context argument (the event
code the OS invoked the callback with), send a constant, return TRUE. -/
inductive COp
  | lockOp
  | unlockOp
  | recvBind
  | recvDiscard
  | callUser
  | sendArg
  | sendConst (v : Nat)
  | retTrue
  deriving DecidableEq

/-- The body of handler (lib.rs lines 112-116): send the event code, send 0,
return TRUE. -/
def handlerProgram : List COp := [COp.sendArg, COp.sendConst 0, COp.retTrue]

/-- The body of at_exit (lib.rs lines 126-133): lock, recv binding the event,
unlock (end of the inner block), call the user handler, lock, recv discarding
the value, unlock (end of the statement). -/
def atExitProgramW : List COp :=
  [COp.lockOp, COp.recvBind, COp.unlockOp, COp.callUser,
   COp.lockOp, COp.recvDiscard, COp.unlockOp]

/-- Whether an instruction sends on the channel. -/
def isSend : COp → Bool
  | COp.sendArg => true
  | COp.sendConst _ => true
  | _ => false

/-- Whether an instruction receives on the channel. -/
def isRecv : COp → Bool
  | COp.recvBind => true
  | COp.recvDiscard => true
  | _ => false

/-- The value a send instruction puts on the channel, given the event code
the sending context was invoked with. -/
def sendsValue (event : Nat) : COp → Option Nat
  | COp.sendArg => some event
  | COp.sendConst v => some v
  | _ => none

/-- A configuration of the handshake: the program counters of the callback
context (hpc, into handlerProgram) and of the waiting thread (wpc, into
atExitProgramW), whether the receiver mutex is held, the value bound by the
first recv, the trace of arguments the user handler was invoked with, the
messages transferred through the channel in order, and the value returned
by the callback to the OS once it has returned. -/
structure Config where
  hpc : Nat
  wpc : Nat
  lockHeld : Bool
  eventVal : Option Nat
  handlerCalls : List Nat
  transfers : List Nat
  hret : Option Nat
  deriving DecidableEq

/-- The initial configuration: both contexts at their first instruction,
mutex free, nothing received, called, transferred or returned. -/
def initConfig : Config := Config.mk 0 0 false none [] [] none

/-- One interleaving step of the two contexts.  A channel transfer advances
the sender and the receiver in the same transition, since the channel has
capacity zero; the mutex is acquired only when free. -/
inductive Step (event : Nat) : Config → Config → Prop
  | wLock (c : Config) (hop : atExitProgramW[c.wpc]? = some COp.lockOp)
      (hfree : c.lockHeld = false) :
      Step event c
        (Config.mk c.hpc (c.wpc + 1) true c.eventVal c.handlerCalls c.transfers c.hret)
  | wUnlock (c : Config) (hop : atExitProgramW[c.wpc]? = some COp.unlockOp) :
      Step event c
        (Config.mk c.hpc (c.wpc + 1) false c.eventVal c.handlerCalls c.transfers c.hret)
  | wCall (c : Config) (v : Nat) (hop : atExitProgramW[c.wpc]? = some COp.callUser)
      (hv : c.eventVal = some v) :
      Step event c
        (Config.mk c.hpc (c.wpc + 1) c.lockHeld c.eventVal
          (c.handlerCalls ++ [v]) c.transfers c.hret)
  | hToW (c : Config) (hop wop : COp) (v : Nat)
      (hh : handlerProgram[c.hpc]? = some hop)
      (hsv : sendsValue event hop = some v)
      (hw : atExitProgramW[c.wpc]? = some wop)
      (hrv : isRecv wop = true) :
      Step event c
        (Config.mk (c.hpc + 1) (c.wpc + 1) c.lockHeld
          (if wop = COp.recvBind then some v else c.eventVal)
          c.handlerCalls (c.transfers ++ [v]) c.hret)
  | wToH (c : Config) (hop wop : COp) (v : Nat)
      (hw : atExitProgramW[c.wpc]? = some wop)
      (hsv : sendsValue event wop = some v)
      (hh : handlerProgram[c.hpc]? = some hop)
      (hrv : isRecv hop = true) :
      Step event c
        (Config.mk (c.hpc + 1) (c.wpc + 1) c.lockHeld c.eventVal
          c.handlerCalls (c.transfers ++ [v]) c.hret)
  | hDone (c : Config) (hop : handlerProgram[c.hpc]? = some COp.retTrue) :
      Step event c
        (Config.mk (c.hpc + 1) c.wpc c.lockHeld c.eventVal
          c.handlerCalls c.transfers (some TRUE))

/-- Configurations reachable from the initial one. -/
def Reachable (event : Nat) (c : Config) : Prop :=
  Relation.ReflTransGen (Step event) initConfig c

/-- The exact-state invariant of the handshake: every reachable configuration
is one of these ten. -/
def HandshakeInv (event : Nat) (c : Config) : Prop :=
  c = Config.mk 0 0 false none [] [] none ∨
  c = Config.mk 0 1 true none [] [] none ∨
  c = Config.mk 1 2 true (some event) [] [event] none ∨
  c = Config.mk 1 3 false (some event) [] [event] none ∨
  c = Config.mk 1 4 false (some event) [event] [event] none ∨
  c = Config.mk 1 5 true (some event) [event] [event] none ∨
  c = Config.mk 2 6 true (some event) [event] [event, 0] none ∨
  c = Config.mk 2 7 false (some event) [event] [event, 0] none ∨
  c = Config.mk 3 6 true (some event) [event] [event, 0] (some TRUE) ∨
  c = Config.mk 3 7 false (some event) [event] [event, 0] (some TRUE)

/-- The terminal configuration of a run with event code 42: the callback has
returned TRUE and at_exit has returned. -/
def cTerm : Config := Config.mk 3 7 false (some 42) [42] [42, 0] (some TRUE)

theorem inv_init (event : Nat) : HandshakeInv event initConfig := by
  left
  rfl

theorem inv_step {event : Nat} {c c' : Config} (hI : HandshakeInv event c)
    (hs : Step event c c') : HandshakeInv event c' := by
  simp only [HandshakeInv] at hI
  rcases hI with rfl | rfl | rfl | rfl | rfl | rfl | rfl | rfl | rfl | rfl <;>
    cases hs <;>
    simp_all only [atExitProgramW, handlerProgram, List.getElem?_cons_zero,
      List.getElem?_cons_succ, List.getElem?_nil, Option.some.injEq] <;>
    subst_vars <;>
    simp_all [HandshakeInv, sendsValue, isRecv] <;>
    (rename_i wop v hsv hrv; cases wop <;> simp_all [sendsValue, isRecv])

theorem reachable_inv {event : Nat} {c : Config} (h : Reachable event c) :
    HandshakeInv event c := by
  induction h with
  | refl => exact inv_init event
  | tail hab hbc ih => exact inv_step ih hbc

theorem reach_terminal : Reachable 42 cTerm := by
  have s1 : Step 42 (Config.mk 0 0 false none [] [] none)
      (Config.mk 0 1 true none [] [] none) :=
    Step.wLock (Config.mk 0 0 false none [] [] none) (by decide) rfl
  have s2 : Step 42 (Config.mk 0 1 true none [] [] none)
      (Config.mk 1 2 true (some 42) [] [42] none) :=
    Step.hToW (Config.mk 0 1 true none [] [] none) COp.sendArg COp.recvBind 42
      (by decide) rfl (by decide) rfl
  have s3 : Step 42 (Config.mk 1 2 true (some 42) [] [42] none)
      (Config.mk 1 3 false (some 42) [] [42] none) :=
    Step.wUnlock (Config.mk 1 2 true (some 42) [] [42] none) (by decide)
  have s4 : Step 42 (Config.mk 1 3 false (some 42) [] [42] none)
      (Config.mk 1 4 false (some 42) [42] [42] none) :=
    Step.wCall (Config.mk 1 3 false (some 42) [] [42] none) 42 (by decide) rfl
  have s5 : Step 42 (Config.mk 1 4 false (some 42) [42] [42] none)
      (Config.mk 1 5 true (some 42) [42] [42] none) :=
    Step.wLock (Config.mk 1 4 false (some 42) [42] [42] none) (by decide) rfl
  have s6 : Step 42 (Config.mk 1 5 true (some 42) [42] [42] none)
      (Config.mk 2 6 true (some 42) [42] [42, 0] none) :=
    Step.hToW (Config.mk 1 5 true (some 42) [42] [42] none) (COp.sendConst 0)
      COp.recvDiscard 0 (by decide) rfl (by decide) rfl
  have s7 : Step 42 (Config.mk 2 6 true (some 42) [42] [42, 0] none)
      (Config.mk 3 6 true (some 42) [42] [42, 0] (some TRUE)) :=
    Step.hDone (Config.mk 2 6 true (some 42) [42] [42, 0] none) (by decide)
  have s8 : Step 42 (Config.mk 3 6 true (some 42) [42] [42, 0] (some TRUE))
      (Config.mk 3 7 false (some 42) [42] [42, 0] (some TRUE)) :=
    Step.wUnlock (Config.mk 3 6 true (some 42) [42] [42, 0] (some TRUE)) (by decide)
  exact Relation.ReflTransGen.tail
    (Relation.ReflTransGen.tail
      (Relation.ReflTransGen.tail
        (Relation.ReflTransGen.tail
          (Relation.ReflTransGen.tail
            (Relation.ReflTransGen.tail
              (Relation.ReflTransGen.tail
                (Relation.ReflTransGen.tail Relation.ReflTransGen.refl s1) s2) s3) s4)
            s5) s6) s7) s8

/-- The body of at_exit never sends on the channel: paired with a send
instruction it can never originate a transfer. -/
theorem atExit_no_send {event : Nat} {n : Nat} {op : COp} {v : Nat}
    (h : atExitProgramW[n]? = some op) (hs : sendsValue event op = some v) :
    False := by
  rcases n with _ | _ | _ | _ | _ | _ | _ | n <;>
    simp only [atExitProgramW, List.getElem?_cons_zero, List.getElem?_cons_succ,
      List.getElem?_nil, Option.some.injEq] at h <;>
    first
      | exact Option.noConfusion h
      | (subst h; simp [sendsValue] at hs)

/-- Every transition that changes the transfer trace is a rendezvous whose
sending side is the callback context: the callback program supplies the value
and both program counters advance together. -/
theorem step_transfer_src {event : Nat} {c c' : Config} (hs : Step event c c')
    (hne : c'.transfers ≠ c.transfers) :
    ∃ hop v, handlerProgram[c.hpc]? = some hop ∧ sendsValue event hop = some v ∧
      c'.transfers = c.transfers ++ [v] ∧ c'.hpc = c.hpc + 1 ∧ c'.wpc = c.wpc + 1 := by
  cases hs with
  | wLock hop hfree => exact absurd rfl hne
  | wUnlock hop => exact absurd rfl hne
  | wCall v hop hv => exact absurd rfl hne
  | hToW hop wop v hh hsv hw hrv => exact ⟨hop, v, hh, hsv, rfl, rfl, rfl⟩
  | wToH hop wop v hw hsv hh hrv => exact (atExit_no_send hw hsv).elim
  | hDone hop => exact absurd rfl hne

/-- Any transition taken while the waiting thread sits at the discarding
receive leaves the bound event value and the user-handler call trace
unchanged: the value of the second message is dropped. -/
theorem recvDiscard_preserves {event : Nat} {c c' : Config} (hs : Step event c c')
    (hpos : atExitProgramW[c.wpc]? = some COp.recvDiscard) :
    c'.eventVal = c.eventVal ∧ c'.handlerCalls = c.handlerCalls := by
  cases hs with
  | wLock hop hfree => exact ⟨rfl, rfl⟩
  | wUnlock hop => exact ⟨rfl, rfl⟩
  | wCall v hop hv =>
      rw [hop] at hpos
      exact absurd hpos (by decide)
  | hToW hop wop v hh hsv hw hrv =>
      rw [hw] at hpos
      have hw2 : wop = COp.recvDiscard := by injection hpos
      subst hw2
      exact ⟨by simp, rfl⟩
  | wToH hop wop v hw hsv hh hrv => exact (atExit_no_send hw hsv).elim
  | hDone hop => exact ⟨rfl, rfl⟩

/-! ## Claims -/

/-- C1 fails on the code: the body of at_exit contains no send instruction at
all, so the waiting thread never sends an acknowledgement into the slot, and
the body of the handler callback contains no receive, so the handler context
never receives one; both handshake messages are sends of the handler
context. -/
theorem at_exit_sends_no_ack_counterexample :
    atExitProgramW.all (fun op => ! isSend op) = true ∧
    handlerProgram.all (fun op => ! isRecv op) = true := by decide

/-- C1 (amended): per event exactly two messages flow through the handshake
slot, but both are sent by the handler context and received by the waiting
thread: first the event code, then a constant 0 whose value is irrelevant.
at_exit performs a receive, not a send, for the acknowledgement step, and in
any reachable configuration in which both messages have moved through the
slot the user handler has already been invoked and has returned; every
transfer originates from a send in the handler program. -/
theorem two_messages_both_sent_by_callback (event : Nat) (c c' : Config)
    (hr : Reachable event c) :
    List.filter isSend handlerProgram = [COp.sendArg, COp.sendConst 0] ∧
    List.filter isRecv atExitProgramW = [COp.recvBind, COp.recvDiscard] ∧
    (∀ op, op ∈ atExitProgramW → isSend op = false) ∧
    c.transfers.length ≤ 2 ∧
    (2 ≤ c.transfers.length → c.transfers = [event, 0] ∧ c.handlerCalls = [event]) ∧
    (Step event c c' → c'.transfers ≠ c.transfers →
      ∃ hop v, handlerProgram[c.hpc]? = some hop ∧ sendsValue event hop = some v ∧
        c'.transfers = c.transfers ++ [v]) := by
  refine ⟨by decide, by decide, by decide, ?_, ?_, ?_⟩
  · have h := reachable_inv hr
    simp only [HandshakeInv] at h
    rcases h with rfl | rfl | rfl | rfl | rfl | rfl | rfl | rfl | rfl | rfl <;> simp
  · have h := reachable_inv hr
    simp only [HandshakeInv] at h
    rcases h with rfl | rfl | rfl | rfl | rfl | rfl | rfl | rfl | rfl | rfl <;> simp
  · intro hs hne
    obtain ⟨hop, v, h1, h2, h3, h4, h5⟩ := step_transfer_src hs hne
    exact ⟨hop, v, h1, h2, h3⟩

/-- Witness for the amended C1 at event code 42 and the terminal
configuration of the canonical run. -/
theorem two_messages_both_sent_by_callback_witness :
    cTerm.transfers.length ≤ 2 ∧ cTerm.transfers = [42, 0] ∧
    cTerm.handlerCalls = [42] := by
  have h := two_messages_both_sent_by_callback 42 cTerm cTerm reach_terminal
  exact ⟨h.2.2.2.1, (h.2.2.2.2.1 (by decide)).1, (h.2.2.2.2.1 (by decide)).2⟩

/-- C2: the callback context returns to the OS only after the user handler
has run to completion and the second handshake step has completed: every
reachable configuration in which the callback has returned has the user
handler invoked exactly once with the event code, both messages transferred,
and the returned result TRUE. -/
theorem callback_returns_only_after_user_handler (event : Nat) (c : Config)
    (hr : Reachable event c) (hne : c.hret ≠ none) :
    c.handlerCalls = [event] ∧ c.transfers = [event, 0] ∧ c.hret = some TRUE := by
  have h := reachable_inv hr
  simp only [HandshakeInv] at h
  rcases h with rfl | rfl | rfl | rfl | rfl | rfl | rfl | rfl | rfl | rfl <;> simp_all

/-- Witness for C2 at event code 42 and the terminal configuration. -/
theorem callback_returns_only_after_user_handler_witness :
    cTerm.handlerCalls = [42] ∧ cTerm.transfers = [42, 0] ∧
    cTerm.hret = some TRUE :=
  callback_returns_only_after_user_handler 42 cTerm reach_terminal (by decide)

/-- C3: on the Unix variant at_exit invokes the user callback exactly once
with the raw delivered signal number and returns its result; on the Windows
variant every reachable configuration has the user handler invoked at most
once, always with the raw event code, and when at_exit has returned (program
counter 7) the handler was invoked exactly once and the acknowledgement
handshake has completed. -/
theorem user_callback_invoked_exactly_once (σ : Type) (g : UnixSignalGuard)
    (st : UnixThreadState) (sig : Nat) (f : Nat → σ → σ) (s : σ)
    (event : Nat) (c : Config) :
    UnixSignalGuard.at_exit σ g st (Except.ok sig) f s =
      (Except.ok (f sig s, g, st), [sig]) ∧
    (Reachable event c → c.handlerCalls = [] ∨ c.handlerCalls = [event]) ∧
    (Reachable event c → c.wpc = 7 →
      c.handlerCalls = [event] ∧ c.transfers = [event, 0]) := by
  refine ⟨rfl, ?_, ?_⟩
  · intro hr
    have h := reachable_inv hr
    simp only [HandshakeInv] at h
    rcases h with rfl | rfl | rfl | rfl | rfl | rfl | rfl | rfl | rfl | rfl <;> simp
  · intro hr hw
    have h := reachable_inv hr
    simp only [HandshakeInv] at h
    rcases h with rfl | rfl | rfl | rfl | rfl | rfl | rfl | rfl | rfl | rfl <;> simp_all

/-- Witness for C3: a SIGINT delivery on the Unix side with a recording
callback, and the terminal configuration of the Windows run at event 42. -/
theorem user_callback_invoked_exactly_once_witness :
    UnixSignalGuard.at_exit (List Nat) ⟨⟨[SIGINT, SIGQUIT, SIGTERM]⟩⟩
        ⟨[SIGINT, SIGQUIT, SIGTERM]⟩ (Except.ok SIGINT) (fun n l => l ++ [n]) [] =
      (Except.ok ([SIGINT], ⟨⟨[SIGINT, SIGQUIT, SIGTERM]⟩⟩,
        ⟨[SIGINT, SIGQUIT, SIGTERM]⟩), [SIGINT]) ∧
    cTerm.handlerCalls = [42] ∧ cTerm.transfers = [42, 0] := by
  have h := user_callback_invoked_exactly_once (List Nat)
      ⟨⟨[SIGINT, SIGQUIT, SIGTERM]⟩⟩ ⟨[SIGINT, SIGQUIT, SIGTERM]⟩ SIGINT
      (fun n l => l ++ [n]) [] 42 cTerm
  exact ⟨h.1, h.2.2 reach_terminal rfl⟩

/-- C4 fails on the code: SignalGuard::new discards the result of
SetConsoleCtrlHandler, so when registration fails (the OS call returns 0 and
the handler chain stays empty) new still returns a guard — the same value as
in the success case, where the routine does get registered. -/
theorem registration_failure_not_fatal_counterexample :
    WinSignalGuard.new ⟨[]⟩ false = (WinSignalGuard.mk, ⟨[]⟩) ∧
    WinSignalGuard.new ⟨[]⟩ true = (WinSignalGuard.mk, ⟨[handlerRoutine]⟩) :=
  ⟨rfl, rfl⟩

/-- C4 (amended): the registration outcome is ignored — construction returns
a guard whether or not the OS accepted the registration — while any lock or
channel failure during the handshake is unwrapped into a panic: the failing
step surfaces as the error branch with no retry and no normal return, and a
failure before the first receive means the user handler is never invoked. -/
theorem registration_ignored_handshake_failures_fatal (σ : Type)
    (st : WinRegState) (osOk b2 : Bool) (r1 r2 : Except ChanErr Nat)
    (e : ChanErr) (ev : Nat) (f : Nat → σ → σ) (s : σ) :
    (WinSignalGuard.new st osOk).1 = WinSignalGuard.mk ∧
    at_exit_win_seq σ false r1 b2 r2 f s = (Except.error ChanErr.poisoned, []) ∧
    at_exit_win_seq σ true (Except.error e) b2 r2 f s = (Except.error e, []) ∧
    (at_exit_win_seq σ true (Except.ok ev) false r2 f s).1 =
      Except.error ChanErr.poisoned ∧
    (at_exit_win_seq σ true (Except.ok ev) true (Except.error e) f s).1 =
      Except.error e ∧
    handler_seq ev (some e) none = (Except.error e, []) ∧
    handler_seq ev none (some e) = (Except.error e, [ev]) :=
  ⟨rfl, rfl, rfl, rfl, rfl, rfl, rfl⟩

/-- Witness for the amended C4 at concrete inputs. -/
theorem registration_ignored_handshake_failures_fatal_witness :
    (WinSignalGuard.new ⟨[]⟩ false).1 = WinSignalGuard.mk ∧
    handler_seq 5 (some ChanErr.disconnected) none =
      (Except.error ChanErr.disconnected, []) := by
  have h := registration_ignored_handshake_failures_fatal Nat ⟨[]⟩ false true
      (Except.ok 0) (Except.ok 0) ChanErr.disconnected 5 (fun _ x => x) 0
  exact ⟨h.1, h.2.2.2.2.2.1⟩

/-- C5: Unix construction starts from the empty set, adds exactly SIGINT,
SIGQUIT and SIGTERM, and blocks that set for the calling thread; on success
the guard stores exactly the three-signal set and the thread blocked mask
gains exactly those three signals, while a failing block operation
propagates the OS error through unwrap and no guard is returned. -/
theorem unix_new_blocks_exactly_three_signals (st : UnixThreadState) (e : Nat) :
    UnixSignalGuard.new st none =
      Except.ok (⟨⟨[SIGINT, SIGQUIT, SIGTERM]⟩⟩,
        ⟨st.blocked ++ [SIGINT, SIGQUIT, SIGTERM]⟩) ∧
    UnixSignalGuard.new st (some e) = Except.error e :=
  ⟨rfl, rfl⟩

/-- Witness for C5 with an initially empty blocked mask and errno 22. -/
theorem unix_new_blocks_exactly_three_signals_witness :
    UnixSignalGuard.new ⟨[]⟩ none =
      Except.ok (⟨⟨[SIGINT, SIGQUIT, SIGTERM]⟩⟩, ⟨[SIGINT, SIGQUIT, SIGTERM]⟩) ∧
    UnixSignalGuard.new ⟨[]⟩ (some 22) = Except.error 22 :=
  unix_new_blocks_exactly_three_signals ⟨[]⟩ 22

/-- C6: when sigwait fails at the OS level, the unwrap inside at_exit turns
the failure into a panic carrying the OS error: the user handler is never
invoked and the operation has no normal return. -/
theorem unix_wait_failure_fatal (σ : Type) (g : UnixSignalGuard)
    (st : UnixThreadState) (e : Nat) (f : Nat → σ → σ) (s : σ) :
    UnixSignalGuard.at_exit σ g st (Except.error e) f s = (Except.error e, []) :=
  rfl

/-- Witness for C6 at errno 4 (EINTR). -/
theorem unix_wait_failure_fatal_witness :
    UnixSignalGuard.at_exit Nat ⟨⟨[SIGINT, SIGQUIT, SIGTERM]⟩⟩
        ⟨[SIGINT, SIGQUIT, SIGTERM]⟩ (Except.error 4) (fun n x => n + x) 0 =
      (Except.error 4, []) :=
  unix_wait_failure_fatal Nat ⟨⟨[SIGINT, SIGQUIT, SIGTERM]⟩⟩
    ⟨[SIGINT, SIGQUIT, SIGTERM]⟩ 4 (fun n x => n + x) 0

/-- C7: CHAN is created by sync_channel(0) — capacity exactly zero on both
ends — and is initialized lazily, process-wide, on first use, later uses
returning the same channel; in the handshake semantics a transfer is a
single transition advancing sender and receiver together (every send blocks
until the matching receive), and at most two messages ever move per event,
one at a time. -/
theorem chan_zero_capacity_lazy_init (event : Nat) (c c' : Config)
    (v : SyncChannelSpec × SyncChannelSpec) :
    CHAN.1.capacity = 0 ∧ CHAN.2.capacity = 0 ∧
    lazyStaticForce none = (CHAN, some CHAN) ∧
    lazyStaticForce (some v) = (v, some v) ∧
    (Step event c c' → c'.transfers ≠ c.transfers →
      c'.hpc = c.hpc + 1 ∧ c'.wpc = c.wpc + 1 ∧
        ∃ w, c'.transfers = c.transfers ++ [w]) ∧
    (Reachable event c → c.transfers.length ≤ 2) := by
  refine ⟨rfl, rfl, rfl, rfl, ?_, ?_⟩
  · intro hs hne
    obtain ⟨hop, w, h1, h2, h3, h4, h5⟩ := step_transfer_src hs hne
    exact ⟨h4, h5, w, h3⟩
  · intro hr
    have h := reachable_inv hr
    simp only [HandshakeInv] at h
    rcases h with rfl | rfl | rfl | rfl | rfl | rfl | rfl | rfl | rfl | rfl <;> simp

/-- Witness for C7 at event 42 and the terminal configuration. -/
theorem chan_zero_capacity_lazy_init_witness :
    CHAN.1.capacity = 0 ∧ cTerm.transfers.length ≤ 2 := by
  have h := chan_zero_capacity_lazy_init 42 cTerm cTerm (⟨0⟩, ⟨0⟩)
  exact ⟨h.1, h.2.2.2.2.2 reach_terminal⟩

/-- C8: on the Unix variant a successful at_exit has no effect beyond running
the user handler: it returns normally, and both the guard (with its stored
signal set) and the thread blocked mask after the call are exactly the
values from before the call, so the signals remain blocked. -/
theorem unix_at_exit_frame (σ : Type) (g : UnixSignalGuard)
    (st : UnixThreadState) (sig : Nat) (f : Nat → σ → σ) (s : σ) :
    ∃ r : σ × UnixSignalGuard × UnixThreadState,
      (UnixSignalGuard.at_exit σ g st (Except.ok sig) f s).1 = Except.ok r ∧
      r.2.1 = g ∧ r.2.2 = st :=
  ⟨(f sig s, g, st), rfl, rfl, rfl⟩

/-- Witness for C8 at a SIGTERM delivery. -/
theorem unix_at_exit_frame_witness :
    ∃ r : Nat × UnixSignalGuard × UnixThreadState,
      (UnixSignalGuard.at_exit Nat ⟨⟨[SIGINT, SIGQUIT, SIGTERM]⟩⟩
        ⟨[SIGINT, SIGQUIT, SIGTERM]⟩ (Except.ok SIGTERM) (fun n x => n + x) 1).1 =
        Except.ok r ∧
      r.2.1 = ⟨⟨[SIGINT, SIGQUIT, SIGTERM]⟩⟩ ∧
      r.2.2 = ⟨[SIGINT, SIGQUIT, SIGTERM]⟩ :=
  unix_at_exit_frame Nat ⟨⟨[SIGINT, SIGQUIT, SIGTERM]⟩⟩
    ⟨[SIGINT, SIGQUIT, SIGTERM]⟩ SIGTERM (fun n x => n + x) 1

/-- C9: the registered callback claims every event it receives: whatever
event code it was invoked with, when it returns to the OS its result is
TRUE, never the not-handled result, in the sequential view as well as in
every reachable configuration of the handshake semantics. -/
theorem callback_always_claims_event (event : Nat) (c : Config) :
    handler_seq event none none = (Except.ok TRUE, [event, 0]) ∧
    (Reachable event c → ∀ b, c.hret = some b → b = TRUE) := by
  refine ⟨rfl, ?_⟩
  intro hr b hb
  have h := reachable_inv hr
  simp only [HandshakeInv] at h
  rcases h with rfl | rfl | rfl | rfl | rfl | rfl | rfl | rfl | rfl | rfl <;> simp_all

/-- Witness for C9 at event 42 and the terminal configuration. -/
theorem callback_always_claims_event_witness :
    handler_seq 42 none none = (Except.ok TRUE, [42, 0]) ∧ (1 : Nat) = TRUE := by
  have h := callback_always_claims_event 42 cTerm
  exact ⟨h.1, h.2 reach_terminal 1 rfl⟩

/-- C10: the receiver mutex is held exactly around the two receives (program
counters 1 and 2 around the first receive and its enclosing block, 5 and 6
around the second): whenever the waiting thread is at the user-handler call
the lock is free, and the rendezvous at the discarding receive leaves the
bound event value and the call trace untouched — the value of the second
received message is discarded. -/
theorem lock_scoped_to_each_receive (event : Nat) (c c' : Config)
    (hr : Reachable event c) :
    (c.lockHeld = true ↔ c.wpc = 1 ∨ c.wpc = 2 ∨ c.wpc = 5 ∨ c.wpc = 6) ∧
    (atExitProgramW[c.wpc]? = some COp.callUser → c.lockHeld = false) ∧
    (Step event c c' → atExitProgramW[c.wpc]? = some COp.recvDiscard →
      c'.eventVal = c.eventVal ∧ c'.handlerCalls = c.handlerCalls) := by
  refine ⟨?_, ?_, fun hs hpos => recvDiscard_preserves hs hpos⟩
  · have h := reachable_inv hr
    simp only [HandshakeInv] at h
    rcases h with rfl | rfl | rfl | rfl | rfl | rfl | rfl | rfl | rfl | rfl <;> simp
  · have h := reachable_inv hr
    simp only [HandshakeInv] at h
    rcases h with rfl | rfl | rfl | rfl | rfl | rfl | rfl | rfl | rfl | rfl <;>
      intro hpos <;> simp_all [atExitProgramW]

/-- Witness for C10 at event 42 and the terminal configuration. -/
theorem lock_scoped_to_each_receive_witness :
    (cTerm.lockHeld = true ↔
      cTerm.wpc = 1 ∨ cTerm.wpc = 2 ∨ cTerm.wpc = 5 ∨ cTerm.wpc = 6) ∧
    (atExitProgramW[cTerm.wpc]? = some COp.callUser → cTerm.lockHeld = false) := by
  have h := lock_scoped_to_each_receive 42 cTerm cTerm reach_terminal
  exact ⟨h.1, h.2.1⟩
